import Mathlib

/-!
# SSD1289 display driver: shallow embedding and verified properties

The C sources `SSD1289.c`, `SSD1289.h` and `main.c` are embedded as pure
state-passing functions over a record `Lcd` holding the driver's global
variables, a test double of the display controller reached through the two
memory-mapped bus locations `LCD_REG` and `LCD_RAM`, and the chronological
trace of externally visible events.

Machine integers are natural numbers or integers with explicit reductions
modulo `2^8`, `2^16` and `2^32` wherever the C code converts or may wrap.
-/

namespace SSD1289

/-! ## Machine integer conversions -/

/-- Conversion of a C `int` value to `uint32_t`: reduction modulo `2^32`. -/
def u32 (x : Int) : Nat := (x % 4294967296).toNat

/-- Conversion of an unsigned value to `uint16_t`: reduction modulo `2^16`. -/
def u16 (x : Nat) : Nat := x % 65536

/-- Conversion of an unsigned value to `uint8_t`: reduction modulo `2^8`. -/
def u8 (x : Nat) : Nat := x % 256

/-! ## Constants of `SSD1289.h` -/

def LCD_REG_34 : Nat := 0x22
def LCD_REG_78 : Nat := 0x4E
def LCD_REG_79 : Nat := 0x4F

def WHITE : Nat := 0xFFFF
def BLACK : Nat := 0x0000
def GREEN : Nat := 0x07E0
def RED : Nat := 0xF800
def BLUE : Nat := 0x001F

def LCD_PIXEL_WIDTH : Nat := 0x0140
def LCD_PIXEL_HEIGHT : Nat := 0x00F0

/-- The macro `ASSEMBLE_RGB(R, G, B)`:
`((((R)& 0xF8) << 8) | (((G) & 0xFC) << 3) | (((B) & 0xF8) >> 3))`. -/
def ASSEMBLE_RGB (R G B : Nat) : Nat :=
  (((R &&& 0xF8) <<< 8) ||| ((G &&& 0xFC) <<< 3)) ||| ((B &&& 0xF8) >>> 3)

/-! ## Observable events -/

/-- Externally visible actions of the driver, in the order they are issued. -/
inductive Event where
  /-- A write `LCD_REG = v` to the command/index location. -/
  | index (v : Nat)
  /-- A write `LCD_RAM = v` to the data location. -/
  | data (v : Nat)
  /-- A completed call `Delay(n)` of the time base. -/
  | delay (n : Nat)
  /-- The pin and clock set-up done by `LCD_CtrlLinesConfig`. -/
  | ctrlLinesConfig
  /-- The memory-controller set-up done by `LCD_FSMCConfig`. -/
  | fsmcConfig
  /-- The pin and clock set-up at the start of `TIM_Config`. -/
  | timPinConfig
  /-- A call `TIM_TimeBaseInit(TIM1, ..)` with the given period field. -/
  | timeBaseInit (period : Nat)
  /-- A call `TIM_OC3Init(TIM1, ..)` with the given pulse field. -/
  | oc3Init (pulse : Nat)
  /-- The calls `TIM_Cmd(TIM1, ENABLE)` and `TIM_CtrlPWMOutputs(TIM1, ENABLE)`. -/
  | timEnable
  deriving DecidableEq, Repr

/-! ## Test double of the display controller -/

/-- Modelled from the spec: the display controller behind the bus, which is
hardware and not part of the sources. It has a register file addressed by the
last index write, and a graphics RAM of `LCD_PIXEL_WIDTH * LCD_PIXEL_HEIGHT`
cells with a write pointer that is set by the X/Y address registers and
advances in horizontal raster order on each data write after command `0x22`,
wrapping after the last cell. -/
structure Panel where
  /-- The register selected by the last index write. -/
  index : Nat
  /-- The register file. -/
  regs : Nat → Nat
  /-- The graphics RAM, cell `y * LCD_PIXEL_WIDTH + x` holding pixel `(x, y)`. -/
  gram : Nat → Nat
  /-- The cell the next graphics RAM write goes to. -/
  ptr : Nat

/-- Number of cells of graphics RAM. -/
def Panel.cells : Nat := LCD_PIXEL_WIDTH * LCD_PIXEL_HEIGHT

/-- The controller's reaction to an index write. -/
def Panel.writeIndex (p : Panel) (v : Nat) : Panel :=
  { p with index := v }

/-- The controller's reaction to a data write: after the graphics RAM command
the word goes to the cell under the write pointer, which then advances;
otherwise it goes to the selected register, and a write to one of the two
address registers repositions the write pointer. -/
def Panel.writeData (p : Panel) (v : Nat) : Panel :=
  if p.index = LCD_REG_34 then
    { p with gram := fun c => if c = p.ptr then v else p.gram c,
             ptr := (p.ptr + 1) % Panel.cells }
  else
    let regs : Nat → Nat := fun r => if r = p.index then v else p.regs r
    { p with regs := regs,
             ptr := if p.index = LCD_REG_78 ∨ p.index = LCD_REG_79 then
                      (regs LCD_REG_79 * LCD_PIXEL_WIDTH + regs LCD_REG_78) % Panel.cells
                    else p.ptr }

/-! ## Driver state -/

/-- The global variables of the program, the controller behind the bus, and
the trace of events issued so far (oldest first). -/
structure Lcd where
  /-- The variable `SystemCoreClock` of the device library. -/
  SystemCoreClock : Nat
  /-- The global `uint16_t TimerPeriod`. -/
  TimerPeriod : Nat
  /-- The global `uint16_t Channel3Pulse`. -/
  Channel3Pulse : Nat
  /-- The field `TIM_TimeBaseStructure.TIM_Period`. -/
  TIM_Period : Nat
  /-- The field `TIM_OCInitStructure.TIM_Pulse`. -/
  TIM_Pulse : Nat
  /-- The global `__IO uint32_t TimingDelay` of `main.c`. -/
  TimingDelay : Nat
  /-- The display controller reached through `LCD_REG` and `LCD_RAM`. -/
  panel : Panel
  /-- The events issued so far, oldest first. -/
  trace : List Event

/-- Record an event at the end of the trace. -/
def Lcd.emit (s : Lcd) (e : Event) : Lcd :=
  { s with trace := s.trace ++ [e] }

/-- The assignment `LCD_REG = v` to the `volatile unsigned short` at `0x60000000`. -/
def Lcd.setREG (s : Lcd) (v : Nat) : Lcd :=
  { s with panel := s.panel.writeIndex (u16 v), trace := s.trace ++ [Event.index (u16 v)] }

/-- The assignment `LCD_RAM = v` to the `volatile unsigned short` at `0x60020000`. -/
def Lcd.setRAM (s : Lcd) (v : Nat) : Lcd :=
  { s with panel := s.panel.writeData (u16 v), trace := s.trace ++ [Event.data (u16 v)] }

/-! ## Time base (`main.c`) -/

/-- The tick handler `TimingDelay_Decrement`: when `TimingDelay != 0x00` the
counter is decremented by one, otherwise nothing happens. -/
def TimingDelay_Decrement (s : Lcd) : Lcd :=
  if s.TimingDelay ≠ 0 then { s with TimingDelay := u32 ((s.TimingDelay : Int) - 1) } else s

/-- The first statement of `Delay`: `TimingDelay = nTime;` with `nTime` a `uint32_t`. -/
def Delay_arm (s : Lcd) (nTime : Nat) : Lcd :=
  { s with TimingDelay := nTime % 4294967296 }

/-- The loop `while(TimingDelay != 0);` of `Delay`, the tick handler
`TimingDelay_Decrement` running once between two tests of the counter;
`ticks` bounds the number of ticks delivered. -/
def Delay_spin : Nat → Lcd → Lcd
  | 0, s => s
  | ticks + 1, s =>
    if s.TimingDelay ≠ 0 then Delay_spin ticks (TimingDelay_Decrement s) else s

/-- Function `Delay(nTime)`: arm the counter, wait for it to reach zero; the completed
delay is recorded in the trace. -/
def Delay (s : Lcd) (nTime : Nat) : Lcd :=
  (Delay_spin (nTime % 4294967296) (Delay_arm s nTime)).emit (Event.delay (nTime % 4294967296))

/-! ## Driver (`SSD1289.c`) -/

/-- Function `LCD_CtrlLinesConfig`: pin multiplexing only, no effect on driver variables. -/
def LCD_CtrlLinesConfig (s : Lcd) : Lcd := s.emit Event.ctrlLinesConfig

/-- Function `LCD_FSMCConfig`: memory-controller timing only, no effect on driver variables. -/
def LCD_FSMCConfig (s : Lcd) : Lcd := s.emit Event.fsmcConfig

/-- Function `TIM_Config`. -/
def TIM_Config (s : Lcd) : Lcd :=
  let s := s.emit Event.timPinConfig
  -- TimerPeriod = (SystemCoreClock / 17570 ) - 1;
  let s := { s with TimerPeriod := u16 (u32 ((s.SystemCoreClock / 17570 : Nat) - 1 : Int)) }
  -- Channel3Pulse = (uint16_t) (((uint32_t) 99 * (TimerPeriod - 1)) / 100);
  let s := { s with Channel3Pulse := u16 (u32 ((99 : Int) * ((s.TimerPeriod : Int) - 1)) / 100) }
  let s := { s with TIM_Period := s.TimerPeriod }
  let s := s.emit (Event.timeBaseInit s.TIM_Period)
  let s := { s with TIM_Pulse := s.Channel3Pulse }
  let s := s.emit (Event.oc3Init s.TIM_Pulse)
  s.emit Event.timEnable

/-- Function `LCD_WriteRAM_Prepare`: `LCD_REG = LCD_REG_34;`. -/
def LCD_WriteRAM_Prepare (s : Lcd) : Lcd := s.setREG LCD_REG_34

/-- Function `LCD_WriteRAM(RGB_Code)`: `LCD_RAM = RGB_Code;`. -/
def LCD_WriteRAM (s : Lcd) (RGB_Code : Nat) : Lcd := s.setRAM (u16 RGB_Code)

/-- Function `LCD_WriteReg(uint8_t LCD_Reg, uint16_t LCD_RegValue)`. -/
def LCD_WriteReg (s : Lcd) (LCD_Reg LCD_RegValue : Nat) : Lcd :=
  let s := s.setREG (u8 LCD_Reg)
  s.setRAM (u16 LCD_RegValue)

/-- Function `LCD_SetCursor(uint16_t Xpos, uint16_t Ypos)`. -/
def LCD_SetCursor (s : Lcd) (Xpos Ypos : Nat) : Lcd :=
  let s := LCD_WriteReg s LCD_REG_78 (u16 Xpos)
  LCD_WriteReg s LCD_REG_79 (u16 Ypos)

/-- The loop `for(index = 0; index <76800; index++){ LCD_RAM = color; }` of
`LCD_Clear`, entered with the given value of the `uint32_t index`. -/
def LCD_Clear_loop (color : Nat) (index : Nat) (s : Lcd) : Lcd :=
  if index < 76800 then
    LCD_Clear_loop color ((index + 1) % 4294967296) (s.setRAM color)
  else s
termination_by 76800 - index
decreasing_by omega

/-- Function `LCD_Clear(uint16_t color)`. -/
def LCD_Clear (s : Lcd) (color : Nat) : Lcd :=
  let s := LCD_SetCursor s 0x00 0x00
  let s := LCD_WriteRAM_Prepare s
  LCD_Clear_loop (u16 color) 0 s

/-- Function `LCD_BackLight(int procentai)`. -/
def LCD_BackLight (s : Lcd) (procentai : Int) : Lcd :=
  let procentai : Int :=
    if procentai > 100 then 100 else if procentai < 0 then 0 else procentai
  -- Channel3Pulse =(uint16_t)(((uint32_t)procentai*(TimerPeriod-1))/100);
  let s := { s with
    Channel3Pulse := u16 (u32 ((u32 procentai : Int) * ((s.TimerPeriod : Int) - 1)) / 100) }
  let s := { s with TIM_Period := s.TimerPeriod }
  let s := { s with TIM_Pulse := s.Channel3Pulse }
  s.emit (Event.oc3Init s.TIM_Pulse)

/-- Function `Init_LCD`: reset and initialize the display. -/
def Init_LCD (s : Lcd) : Lcd :=
  let s := LCD_CtrlLinesConfig s
  let s := Delay s 3000
  let s := LCD_FSMCConfig s
  let s := Delay s 3000
  let s := TIM_Config s
  let s := LCD_BackLight s 100
  let s := LCD_WriteReg s 0x0007 0x0021;    let s := Delay s 50
  let s := LCD_WriteReg s 0x0000 0x0001;    let s := Delay s 50
  let s := LCD_WriteReg s 0x0007 0x0023;    let s := Delay s 50
  let s := LCD_WriteReg s 0x0010 0x0000;    let s := Delay s 90
  let s := LCD_WriteReg s 0x0007 0x0033;    let s := Delay s 50
  let s := LCD_WriteReg s 0x0011 0x6830;    let s := Delay s 50
  let s := LCD_WriteReg s 0x0002 0x0600;    let s := Delay s 50
  let s := LCD_WriteReg s 0x0012 0x6CEB;    let s := Delay s 50
  let s := LCD_WriteReg s 0x0003 0xA8A4;    let s := Delay s 50
  let s := LCD_WriteReg s 0x000C 0x0000;    let s := Delay s 50
  let s := LCD_WriteReg s 0x000D 0x080C;    let s := Delay s 50
  let s := LCD_WriteReg s 0x000E 0x2B00;    let s := Delay s 50
  let s := LCD_WriteReg s 0x001E 0x00B0;    let s := Delay s 50
  let s := LCD_WriteReg s 0x0001 0x2b3F;    let s := Delay s 50
  let s := LCD_WriteReg s 0x0005 0x0000;    let s := Delay s 50
  let s := LCD_WriteReg s 0x0006 0x0000;    let s := Delay s 50
  let s := LCD_WriteReg s 0x0016 0xEF1C;    let s := Delay s 50
  let s := LCD_WriteReg s 0x0017 0x0103;    let s := Delay s 50
  let s := LCD_WriteReg s 0x000B 0x0000;    let s := Delay s 50
  let s := LCD_WriteReg s 0x000F 0x0000;    let s := Delay s 50
  let s := LCD_WriteReg s 0x0041 0x0000;    let s := Delay s 50
  let s := LCD_WriteReg s 0x0042 0x0000;    let s := Delay s 50
  let s := LCD_WriteReg s 0x0048 0x0000;    let s := Delay s 50
  let s := LCD_WriteReg s 0x0049 0x013F;    let s := Delay s 50
  let s := LCD_WriteReg s 0x004A 0x0000;    let s := Delay s 50
  let s := LCD_WriteReg s 0x004B 0x0000;    let s := Delay s 50
  let s := LCD_WriteReg s 0x0044 0xEF00;    let s := Delay s 50
  let s := LCD_WriteReg s 0x0045 0x0000;    let s := Delay s 50
  let s := LCD_WriteReg s 0x0046 0x013F;    let s := Delay s 50
  let s := LCD_WriteReg s 0x0030 0x0707;    let s := Delay s 50
  let s := LCD_WriteReg s 0x0031 0x0204;    let s := Delay s 50
  let s := LCD_WriteReg s 0x0032 0x0204;    let s := Delay s 50
  let s := LCD_WriteReg s 0x0033 0x0502;    let s := Delay s 50
  let s := LCD_WriteReg s 0x0034 0x0507;    let s := Delay s 50
  let s := LCD_WriteReg s 0x0035 0x0204;    let s := Delay s 50
  let s := LCD_WriteReg s 0x0036 0x0204;    let s := Delay s 50
  let s := LCD_WriteReg s 0x0037 0x0502;    let s := Delay s 50
  let s := LCD_WriteReg s 0x003A 0x0302;    let s := Delay s 50
  let s := LCD_WriteReg s 0x002F 0x12BE;    let s := Delay s 50
  let s := LCD_WriteReg s 0x003B 0x0302;    let s := Delay s 50
  let s := LCD_WriteReg s 0x0023 0x0000;    let s := Delay s 50
  let s := LCD_WriteReg s 0x0024 0x0000;    let s := Delay s 50
  let s := LCD_WriteReg s 0x0025 0x8000;    let s := Delay s 50
  let s := LCD_WriteReg s 0x004f 0x0000;    let s := Delay s 50
  let s := LCD_WriteReg s 0x004e 0x0000;    let s := Delay s 50
  s

/-! ## Concrete states -/

/-- The state at program start: globals hold their initializers (zero), the
core clock is the 168 MHz of the reference board, the controller is blank and
nothing has been traced. -/
def Lcd.boot : Lcd where
  SystemCoreClock := 168000000
  TimerPeriod := 0
  Channel3Pulse := 0
  TIM_Period := 0
  TIM_Pulse := 0
  TimingDelay := 0
  panel := { index := 0, regs := fun _ => 0, gram := fun _ => 0, ptr := 0 }
  trace := []

/-- The start state with the timer period set to `P`. -/
def Lcd.withPeriod (P : Nat) : Lcd :=
  { Lcd.boot with TimerPeriod := P }

/-- The start state with the core clock set to `f` Hz. -/
def Lcd.withClock (f : Nat) : Lcd :=
  { Lcd.boot with SystemCoreClock := f }

/-- The percentage `LCD_BackLight` works with after its two range tests, as
the specification words the clamp. -/
def clampPercent (p : Int) : Int :=
  if p < 0 then 0 else if p > 100 then 100 else p

/-- The duty as the specification's data-model invariant words it: the exact
quotient `percent * (period - 1) / 100` rounded to the nearest integer. -/
def roundedDuty (p : Int) (P : Nat) : Int :=
  round ((clampPercent p : ℚ) * ((P : ℚ) - 1) / 100)

/-- The duty as the specification's component design words it: the exact
quotient `percent * (period - 1) / 100` rounded down. -/
def flooredDuty (p : Int) (P : Nat) : Int :=
  ⌊(clampPercent p : ℚ) * ((P : ℚ) - 1) / 100⌋

/-! ## The register sequencer as the specification words it -/

/-- One step of a register table: register id, value, delay after the write. -/
structure InitStep where
  id : Nat
  value : Nat
  delayMs : Nat
  deriving DecidableEq, Repr

/-- The specification's `applyStep`: write the id to the index register, the
value to the data register, then delay. -/
def applyStep (s : Lcd) (step : InitStep) : Lcd :=
  Delay (LCD_WriteReg s step.id step.value) step.delayMs

/-- The specification's `applyTable`: every step in listed order. -/
def applyTable (s : Lcd) (steps : List InitStep) : Lcd :=
  steps.foldl applyStep s

/-- The events one table step puts on the trace. -/
def stepEvents (step : InitStep) : List Event :=
  [Event.index step.id, Event.data step.value, Event.delay step.delayMs]

/-- The events a whole table puts on the trace. -/
def tableEvents : List InitStep → List Event
  | [] => []
  | step :: rest => stepEvents step ++ tableEvents rest

/-- The part of `Init_LCD` that precedes its register writes. -/
def Init_LCD_setup (s : Lcd) : Lcd :=
  let s := LCD_CtrlLinesConfig s
  let s := Delay s 3000
  let s := LCD_FSMCConfig s
  let s := Delay s 3000
  let s := TIM_Config s
  LCD_BackLight s 100

/-- The register writes of `Init_LCD` (lines 169 to 213 of `SSD1289.c`) read
as a table, in source order. -/
def initTable : List InitStep := [
    ⟨0x0007, 0x0021, 50⟩,
    ⟨0x0000, 0x0001, 50⟩,
    ⟨0x0007, 0x0023, 50⟩,
    ⟨0x0010, 0x0000, 90⟩,
    ⟨0x0007, 0x0033, 50⟩,
    ⟨0x0011, 0x6830, 50⟩,
    ⟨0x0002, 0x0600, 50⟩,
    ⟨0x0012, 0x6CEB, 50⟩,
    ⟨0x0003, 0xA8A4, 50⟩,
    ⟨0x000C, 0x0000, 50⟩,
    ⟨0x000D, 0x080C, 50⟩,
    ⟨0x000E, 0x2B00, 50⟩,
    ⟨0x001E, 0x00B0, 50⟩,
    ⟨0x0001, 0x2b3F, 50⟩,
    ⟨0x0005, 0x0000, 50⟩,
    ⟨0x0006, 0x0000, 50⟩,
    ⟨0x0016, 0xEF1C, 50⟩,
    ⟨0x0017, 0x0103, 50⟩,
    ⟨0x000B, 0x0000, 50⟩,
    ⟨0x000F, 0x0000, 50⟩,
    ⟨0x0041, 0x0000, 50⟩,
    ⟨0x0042, 0x0000, 50⟩,
    ⟨0x0048, 0x0000, 50⟩,
    ⟨0x0049, 0x013F, 50⟩,
    ⟨0x004A, 0x0000, 50⟩,
    ⟨0x004B, 0x0000, 50⟩,
    ⟨0x0044, 0xEF00, 50⟩,
    ⟨0x0045, 0x0000, 50⟩,
    ⟨0x0046, 0x013F, 50⟩,
    ⟨0x0030, 0x0707, 50⟩,
    ⟨0x0031, 0x0204, 50⟩,
    ⟨0x0032, 0x0204, 50⟩,
    ⟨0x0033, 0x0502, 50⟩,
    ⟨0x0034, 0x0507, 50⟩,
    ⟨0x0035, 0x0204, 50⟩,
    ⟨0x0036, 0x0204, 50⟩,
    ⟨0x0037, 0x0502, 50⟩,
    ⟨0x003A, 0x0302, 50⟩,
    ⟨0x002F, 0x12BE, 50⟩,
    ⟨0x003B, 0x0302, 50⟩,
    ⟨0x0023, 0x0000, 50⟩,
    ⟨0x0024, 0x0000, 50⟩,
    ⟨0x0025, 0x8000, 50⟩,
    ⟨0x004f, 0x0000, 50⟩,
    ⟨0x004e, 0x0000, 50⟩]

/-- The value a table writes last to register `r`, if it writes to it at all. -/
def lastValue : List InitStep → Nat → Option Nat
  | [], _ => none
  | step :: rest, r =>
    match lastValue rest r with
    | some v => some v
    | none => if step.id = r then some step.value else none

/-! ## Order of events -/

/-- Whether an event configures the backlight controller: the timer pin
set-up, `TIM_TimeBaseInit`, `TIM_OC3Init` and the timer enable. -/
def Event.isBacklight : Event → Bool
  | .timPinConfig => true
  | .timeBaseInit _ => true
  | .oc3Init _ => true
  | .timEnable => true
  | _ => false

/-- Whether an event is a write on the display bus. -/
def Event.isBusWrite : Event → Bool
  | .index _ => true
  | .data _ => true
  | _ => false

/-- Whether an event is part of the transport's electrical configuration. -/
def Event.isTransportConfig : Event → Bool
  | .ctrlLinesConfig => true
  | .fsmcConfig => true
  | _ => false

/-- The order the specification's control flow states: no backlight
configuration event precedes a bus write. -/
def backlightAfterWrites : List Event → Bool
  | [] => true
  | e :: rest =>
    (!e.isBacklight || rest.all (fun x => !x.isBusWrite)) && backlightAfterWrites rest

/-- The opposite order: no bus write precedes a backlight configuration
event. -/
def backlightBeforeWrites : List Event → Bool
  | [] => true
  | e :: rest =>
    (!e.isBusWrite || rest.all (fun x => !x.isBacklight)) && backlightBeforeWrites rest

/-! ## Backlight duty -/

theorem clampPercent_range (p : Int) : 0 ≤ clampPercent p ∧ clampPercent p ≤ 100 := by
  unfold clampPercent
  split_ifs <;> omega

theorem clampPercent_mono {p q : Int} (h : p ≤ q) : clampPercent p ≤ clampPercent q := by
  unfold clampPercent
  split_ifs <;> omega

/-- The stored pulse in terms of the clamped percentage, before any arithmetic
fact is used. -/
theorem LCD_BackLight_pulse_raw (s : Lcd) (p : Int) :
    (LCD_BackLight s p).Channel3Pulse
      = u16 (u32 ((u32 (clampPercent p) : Int) * ((s.TimerPeriod : Int) - 1)) / 100)
    ∧ (LCD_BackLight s p).TIM_Pulse = (LCD_BackLight s p).Channel3Pulse := by
  unfold LCD_BackLight clampPercent Lcd.emit
  refine ⟨?_, rfl⟩
  by_cases h1 : p > 100
  · have h2 : ¬ p < 0 := by omega
    simp [h1, h2]
  · by_cases h2 : p < 0
    · simp [h1, h2]
    · simp [h1, h2]

/-- For a period `P ≥ 1` nothing wraps: the pulse is the integer quotient. -/
theorem LCD_BackLight_pulse_exact (s : Lcd) (p : Int)
    (hP : 1 ≤ s.TimerPeriod) (hP16 : s.TimerPeriod < 65536) :
    ((LCD_BackLight s p).Channel3Pulse : Int)
      = clampPercent p * ((s.TimerPeriod : Int) - 1) / 100 := by
  rw [(LCD_BackLight_pulse_raw s p).1]
  obtain ⟨h0, h100⟩ := clampPercent_range p
  have hm0 : 0 ≤ clampPercent p * ((s.TimerPeriod : Int) - 1) :=
    mul_nonneg h0 (by omega)
  have hm1 : clampPercent p * ((s.TimerPeriod : Int) - 1) ≤ 100 * ((s.TimerPeriod : Int) - 1) :=
    mul_le_mul_of_nonneg_right h100 (by omega)
  have hc : ((u32 (clampPercent p) : Nat) : Int) = clampPercent p := by
    unfold u32; omega
  rw [hc]
  unfold u16 u32
  omega

/-- C1: for every 16-bit timer period `P > 1` and every `int` percent `p`,
`LCD_BackLight(p)` stores `floor(c * (P - 1) / 100)` in `Channel3Pulse` and in
the output-compare pulse field, `c` being `p` clamped to `[0, 100]`; the 32-bit
product does not wrap and the cast to `uint16_t` loses nothing; the duty is `0`
for `p = 0`, `P - 1` for `p = 100`, and `-5` gives the same duty as `0`. -/
theorem LCD_BackLight_duty (s : Lcd) (p : Int)
    (hP : 1 < s.TimerPeriod) (hP16 : s.TimerPeriod < 65536) :
    ((LCD_BackLight s p).Channel3Pulse : Int)
        = (if p < 0 then 0 else if p > 100 then 100 else p) * ((s.TimerPeriod : Int) - 1) / 100
    ∧ (LCD_BackLight s p).TIM_Pulse = (LCD_BackLight s p).Channel3Pulse
    ∧ (LCD_BackLight s p).trace = s.trace ++ [Event.oc3Init (LCD_BackLight s p).Channel3Pulse]
    ∧ ((u32 ((u32 (clampPercent p) : Int) * ((s.TimerPeriod : Int) - 1)) : Nat) : Int)
        = clampPercent p * ((s.TimerPeriod : Int) - 1)
    ∧ u16 (u32 ((u32 (clampPercent p) : Int) * ((s.TimerPeriod : Int) - 1)) / 100)
        = u32 ((u32 (clampPercent p) : Int) * ((s.TimerPeriod : Int) - 1)) / 100
    ∧ (LCD_BackLight s 0).Channel3Pulse = 0
    ∧ (LCD_BackLight s 100).Channel3Pulse = s.TimerPeriod - 1
    ∧ (LCD_BackLight s (-5)).Channel3Pulse = (LCD_BackLight s 0).Channel3Pulse := by
  obtain ⟨h0, h100⟩ := clampPercent_range p
  have hm0 : 0 ≤ clampPercent p * ((s.TimerPeriod : Int) - 1) :=
    mul_nonneg h0 (by omega)
  have hm1 : clampPercent p * ((s.TimerPeriod : Int) - 1) ≤ 100 * ((s.TimerPeriod : Int) - 1) :=
    mul_le_mul_of_nonneg_right h100 (by omega)
  have hc : ((u32 (clampPercent p) : Nat) : Int) = clampPercent p := by
    unfold u32; omega
  have e0 := LCD_BackLight_pulse_exact s 0 (by omega) hP16
  have e100 := LCD_BackLight_pulse_exact s 100 (by omega) hP16
  have e5 := LCD_BackLight_pulse_exact s (-5) (by omega) hP16
  have c0 : clampPercent 0 = 0 := by decide
  have c100 : clampPercent 100 = 100 := by decide
  have c5 : clampPercent (-5) = 0 := by decide
  rw [c0] at e0
  rw [c100] at e100
  rw [c5] at e5
  refine ⟨LCD_BackLight_pulse_exact s p (by omega) hP16, (LCD_BackLight_pulse_raw s p).2,
    ?_, ?_, ?_, ?_, ?_, ?_⟩
  · rw [← (LCD_BackLight_pulse_raw s p).2]; rfl
  · rw [hc]; unfold u32; omega
  · rw [hc]; unfold u16 u32; omega
  · omega
  · omega
  · omega

theorem LCD_BackLight_duty_witness :
    (1 < (Lcd.withPeriod 9560).TimerPeriod ∧ (Lcd.withPeriod 9560).TimerPeriod < 65536)
    ∧ ((LCD_BackLight (Lcd.withPeriod 9560) 50).Channel3Pulse : Int) = 4779
    ∧ (LCD_BackLight (Lcd.withPeriod 9560) 100).Channel3Pulse = 9559 :=
  ⟨⟨by decide, by decide⟩,
   (LCD_BackLight_duty (Lcd.withPeriod 9560) 50 (by decide) (by decide)).1,
   (LCD_BackLight_duty (Lcd.withPeriod 9560) 50 (by decide) (by decide)).2.2.2.2.2.2.1⟩

/-- C7: for every fixed 16-bit timer period `P > 1` the duty programmed by
`LCD_BackLight` is monotonically non-decreasing in its argument over all
`int` inputs, those below `0` and above `100` included. -/
theorem LCD_BackLight_mono (s : Lcd) (p q : Int)
    (hP : 1 < s.TimerPeriod) (hP16 : s.TimerPeriod < 65536) (hpq : p ≤ q) :
    (LCD_BackLight s p).Channel3Pulse ≤ (LCD_BackLight s q).Channel3Pulse
    ∧ (LCD_BackLight s p).TIM_Pulse ≤ (LCD_BackLight s q).TIM_Pulse := by
  have ep := LCD_BackLight_pulse_exact s p (by omega) hP16
  have eq := LCD_BackLight_pulse_exact s q (by omega) hP16
  have hm : clampPercent p * ((s.TimerPeriod : Int) - 1)
      ≤ clampPercent q * ((s.TimerPeriod : Int) - 1) :=
    mul_le_mul_of_nonneg_right (clampPercent_mono hpq) (by omega)
  have hd := Int.ediv_le_ediv (by decide : (0 : Int) < 100) hm
  rw [(LCD_BackLight_pulse_raw s p).2, (LCD_BackLight_pulse_raw s q).2]
  omega

theorem LCD_BackLight_mono_witness :
    (1 < (Lcd.withPeriod 9560).TimerPeriod ∧ (Lcd.withPeriod 9560).TimerPeriod < 65536
      ∧ (-7 : Int) ≤ 130)
    ∧ (LCD_BackLight (Lcd.withPeriod 9560) (-7)).Channel3Pulse
        ≤ (LCD_BackLight (Lcd.withPeriod 9560) 130).Channel3Pulse :=
  ⟨⟨by decide, by decide, by decide⟩,
   (LCD_BackLight_mono (Lcd.withPeriod 9560) (-7) 130 (by decide) (by decide) (by decide)).1⟩

/-- C10, as stated, fails: with period `52` and `1` percent the exact quotient
is `0.51`, which rounds to `1`, while `LCD_BackLight` programs `0`; and with
period `0` the subtraction `TimerPeriod - 1` wraps, `LCD_BackLight(1)`
programs `23592` while the rounded quotient is `0`. -/
theorem LCD_BackLight_not_rounded :
    ((LCD_BackLight (Lcd.withPeriod 52) 1).Channel3Pulse : Int) = 0
    ∧ roundedDuty 1 52 = 1
    ∧ ((LCD_BackLight (Lcd.withPeriod 52) 1).Channel3Pulse : Int) ≠ roundedDuty 1 52
    ∧ ((LCD_BackLight (Lcd.withPeriod 0) 1).Channel3Pulse : Int) = 23592
    ∧ roundedDuty 1 0 = 0
    ∧ ((LCD_BackLight (Lcd.withPeriod 0) 1).Channel3Pulse : Int) ≠ roundedDuty 1 0 := by
  have h52 : ((LCD_BackLight (Lcd.withPeriod 52) 1).Channel3Pulse : Int) = 0 := by decide
  have h0 : ((LCD_BackLight (Lcd.withPeriod 0) 1).Channel3Pulse : Int) = 23592 := by decide
  have c1 : clampPercent 1 = 1 := by decide
  have r52 : roundedDuty 1 52 = 1 := by
    unfold roundedDuty
    rw [c1, round_eq, Int.floor_eq_iff]
    norm_num
  have r0 : roundedDuty 1 0 = 0 := by
    unfold roundedDuty
    rw [c1, round_eq, Int.floor_eq_iff]
    norm_num
  refine ⟨h52, r52, ?_, h0, r0, ?_⟩
  · rw [h52, r52]; decide
  · rw [h0, r0]; decide

/-- C10, amended: for every percent `p` and every 16-bit timer period
`P ≥ 1`, the duty programmed by `LCD_BackLight` is the exact quotient
`c * (P - 1) / 100` rounded down, `c` being `p` clamped to `[0, 100]`. -/
theorem LCD_BackLight_floored (s : Lcd) (p : Int)
    (hP : 1 ≤ s.TimerPeriod) (hP16 : s.TimerPeriod < 65536) :
    ((LCD_BackLight s p).Channel3Pulse : Int) = flooredDuty p s.TimerPeriod
    ∧ ((LCD_BackLight s p).TIM_Pulse : Int) = flooredDuty p s.TimerPeriod := by
  have e := LCD_BackLight_pulse_exact s p hP hP16
  have hf : flooredDuty p s.TimerPeriod
      = clampPercent p * ((s.TimerPeriod : Int) - 1) / 100 := by
    unfold flooredDuty
    have h := Rat.floor_intCast_div_natCast (clampPercent p * ((s.TimerPeriod : Int) - 1)) 100
    have hcast : ((clampPercent p : ℚ) * ((s.TimerPeriod : ℚ) - 1) / 100)
        = ((clampPercent p * ((s.TimerPeriod : Int) - 1) : Int) : ℚ) / ((100 : ℕ) : ℚ) := by
      push_cast
      rfl
    rw [hcast, h]
    rfl
  rw [(LCD_BackLight_pulse_raw s p).2, hf]
  exact ⟨e, e⟩

theorem LCD_BackLight_floored_witness :
    (1 ≤ (Lcd.withPeriod 52).TimerPeriod ∧ (Lcd.withPeriod 52).TimerPeriod < 65536)
    ∧ ((LCD_BackLight (Lcd.withPeriod 52) 1).Channel3Pulse : Int)
        = flooredDuty 1 (Lcd.withPeriod 52).TimerPeriod :=
  ⟨⟨by decide, by decide⟩,
   (LCD_BackLight_floored (Lcd.withPeriod 52) 1 (by decide) (by decide)).1⟩

/-! ## Time base -/

/-- On a counter in `uint32_t` range a tick subtracts one, stopping at zero. -/
theorem TimingDelay_Decrement_eq (s : Lcd) (h : s.TimingDelay < 4294967296) :
    TimingDelay_Decrement s = { s with TimingDelay := s.TimingDelay - 1 } := by
  unfold TimingDelay_Decrement
  split_ifs with h0
  · have e : u32 ((s.TimingDelay : Int) - 1) = s.TimingDelay - 1 := by
      unfold u32; omega
    rw [e]
  · have e : s.TimingDelay = 0 := by omega
    cases s
    simp_all

/-- The effect of `k` ticks on a counter in `uint32_t` range. -/
theorem TimingDelay_Decrement_iterate (k : Nat) (s : Lcd) (h : s.TimingDelay < 4294967296) :
    TimingDelay_Decrement^[k] s = { s with TimingDelay := s.TimingDelay - k } := by
  induction k generalizing s with
  | zero => rfl
  | succ k ih =>
    rw [Function.iterate_succ_apply, TimingDelay_Decrement_eq s h, ih _ (by simp only; omega)]
    simp only [Nat.sub_sub]
    rw [Nat.add_comm 1 k]

/-- The waiting loop of `Delay` exits with the counter at zero as soon as the
ticks delivered cover the armed count. -/
theorem Delay_spin_eq (ticks : Nat) (s : Lcd)
    (h : s.TimingDelay < 4294967296) (hk : s.TimingDelay ≤ ticks) :
    Delay_spin ticks s = { s with TimingDelay := 0 } := by
  induction ticks generalizing s with
  | zero =>
    have e : s.TimingDelay = 0 := by omega
    cases s
    simp_all [Delay_spin]
  | succ k ih =>
    unfold Delay_spin
    split_ifs with h0
    · rw [TimingDelay_Decrement_eq s h, ih _ (by simp only; omega) (by simp only; omega)]
    · have e : s.TimingDelay = 0 := by omega
      cases s
      simp_all

/-- A call `Delay(n)` returns with the counter at zero, having changed nothing else
but the trace, to which it adds the completed delay. -/
theorem Delay_eq (s : Lcd) (n : Nat) :
    Delay s n = { s with TimingDelay := 0,
                         trace := s.trace ++ [Event.delay (n % 4294967296)] } := by
  unfold Delay
  rw [Delay_spin_eq _ _ (by unfold Delay_arm; simp only; omega) (by unfold Delay_arm; simp only; omega)]
  rfl

/-- C6: for the counter armed to `n` by `Delay(n)` and every number `k` of
ticks, `k` calls of `TimingDelay_Decrement` leave the counter at `n - k` when
`k ≤ n` and at `0` when `k ≥ n`; the counter is zero after `k` ticks exactly
when `k ≥ n`; a tick at zero leaves the counter at zero. -/
theorem TimingDelay_countdown (s : Lcd) (n k : Nat) (hn : n < 4294967296) :
    (k ≤ n → (TimingDelay_Decrement^[k] (Delay_arm s n)).TimingDelay + k = n)
    ∧ (n ≤ k → (TimingDelay_Decrement^[k] (Delay_arm s n)).TimingDelay = 0)
    ∧ ((TimingDelay_Decrement^[k] (Delay_arm s n)).TimingDelay = 0 ↔ n ≤ k)
    ∧ ((TimingDelay_Decrement^[k] (Delay_arm s n)).TimingDelay = 0 →
        (TimingDelay_Decrement (TimingDelay_Decrement^[k] (Delay_arm s n))).TimingDelay = 0)
    ∧ (Delay_spin k (Delay_arm s n)).TimingDelay = n - k
    ∧ (Delay s n).TimingDelay = 0 := by
  have ha : (Delay_arm s n).TimingDelay = n := by
    unfold Delay_arm; simp only; omega
  have hi := TimingDelay_Decrement_iterate k (Delay_arm s n) (by omega)
  have hv : (TimingDelay_Decrement^[k] (Delay_arm s n)).TimingDelay = n - k := by
    rw [hi, ha]
  have hspin : ∀ (j : Nat) (t : Lcd), t.TimingDelay < 4294967296 →
      (Delay_spin j t).TimingDelay = t.TimingDelay - j := by
    intro j
    induction j with
    | zero => intro t _; rfl
    | succ j ih =>
      intro t ht
      unfold Delay_spin
      split_ifs with h0
      · rw [ih _ (by rw [TimingDelay_Decrement_eq t ht]; simp only; omega),
          TimingDelay_Decrement_eq t ht]
        simp only
        omega
      · omega
  refine ⟨?_, ?_, ?_, ?_, ?_, ?_⟩
  · intro h; omega
  · intro h; omega
  · constructor <;> intro h <;> omega
  · intro h
    generalize TimingDelay_Decrement^[k] (Delay_arm s n) = t at h
    unfold TimingDelay_Decrement
    rw [if_neg (by omega)]
    exact h
  · rw [hspin k _ (by omega), ha]
  · rw [Delay_eq]

theorem TimingDelay_countdown_witness :
    (50 : Nat) < 4294967296
    ∧ ((TimingDelay_Decrement^[49] (Delay_arm Lcd.boot 50)).TimingDelay = 0 ↔ 50 ≤ 49)
    ∧ (Delay_spin 49 (Delay_arm Lcd.boot 50)).TimingDelay = 50 - 49 :=
  ⟨by decide,
   (TimingDelay_countdown Lcd.boot 50 49 (by decide)).2.2.1,
   (TimingDelay_countdown Lcd.boot 50 49 (by decide)).2.2.2.2.1⟩

/-! ## Colour packing -/

set_option maxRecDepth 100000 in
theorem ASSEMBLE_RGB_red_field : ∀ R, R < 256 → (R &&& 0xF8) <<< 8 = 2 ^ 11 * (R >>> 3) := by
  decide

set_option maxRecDepth 100000 in
theorem ASSEMBLE_RGB_green_field : ∀ G, G < 256 → (G &&& 0xFC) <<< 3 = 2 ^ 5 * (G >>> 2) := by
  decide

set_option maxRecDepth 100000 in
theorem ASSEMBLE_RGB_blue_field : ∀ B, B < 256 → (B &&& 0xF8) >>> 3 = B >>> 3 := by
  decide

/-- The packed value is the sum of its three fields, each at its own place. -/
theorem ASSEMBLE_RGB_eq_sum (R G B : Nat) (hR : R < 256) (hG : G < 256) (hB : B < 256) :
    ASSEMBLE_RGB R G B = 2 ^ 11 * (R >>> 3) + (2 ^ 5 * (G >>> 2) + B >>> 3) := by
  have hg : G >>> 2 < 64 := by
    rw [Nat.shiftRight_eq_div_pow]; omega
  have hb : B >>> 3 < 2 ^ 5 := by
    rw [Nat.shiftRight_eq_div_pow]; omega
  have hgb : 2 ^ 5 * (G >>> 2) + B >>> 3 < 2 ^ 11 := by
    have : B >>> 3 < 32 := hb
    omega
  unfold ASSEMBLE_RGB
  rw [ASSEMBLE_RGB_red_field R hR, ASSEMBLE_RGB_green_field G hG, ASSEMBLE_RGB_blue_field B hB,
    Nat.lor_assoc, ← Nat.mul_add_lt_is_or hb, ← Nat.mul_add_lt_is_or hgb]

/-- C5: for every `R`, `G`, `B` in `0..255`, `ASSEMBLE_RGB(R, G, B)` is below
`2^16`, its bits 15-11 are `R >> 3`, its bits 10-5 are `G >> 2`, its bits 4-0
are `B >> 3`, the three fields do not overlap, and pure red, green and blue
pack to the constants `RED`, `GREEN` and `BLUE`. -/
theorem ASSEMBLE_RGB_layout (R G B : Nat) (hR : R < 256) (hG : G < 256) (hB : B < 256) :
    ASSEMBLE_RGB R G B < 2 ^ 16
    ∧ (ASSEMBLE_RGB R G B >>> 11) % 2 ^ 5 = R >>> 3
    ∧ (ASSEMBLE_RGB R G B >>> 5) % 2 ^ 6 = G >>> 2
    ∧ ASSEMBLE_RGB R G B % 2 ^ 5 = B >>> 3
    ∧ ASSEMBLE_RGB R G B = (R >>> 3) <<< 11 + (G >>> 2) <<< 5 + B >>> 3
    ∧ (R >>> 3 < 2 ^ 5 ∧ G >>> 2 < 2 ^ 6 ∧ B >>> 3 < 2 ^ 5)
    ∧ ASSEMBLE_RGB 255 0 0 = RED ∧ RED = 0xF800
    ∧ ASSEMBLE_RGB 0 255 0 = GREEN ∧ GREEN = 0x07E0
    ∧ ASSEMBLE_RGB 0 0 255 = BLUE ∧ BLUE = 0x001F := by
  have hs := ASSEMBLE_RGB_eq_sum R G B hR hG hB
  simp only [Nat.shiftRight_eq_div_pow, Nat.shiftLeft_eq] at hs ⊢
  refine ⟨?_, ?_, ?_, ?_, ?_, ⟨?_, ?_, ?_⟩, by decide, by decide, by decide, by decide,
    by decide, by decide⟩ <;> omega

theorem ASSEMBLE_RGB_layout_witness :
    ((200 : Nat) < 256 ∧ (100 : Nat) < 256 ∧ (50 : Nat) < 256)
    ∧ ASSEMBLE_RGB 200 100 50 < 2 ^ 16
    ∧ (ASSEMBLE_RGB 200 100 50 >>> 11) % 2 ^ 5 = 200 >>> 3 :=
  ⟨⟨by decide, by decide, by decide⟩,
   (ASSEMBLE_RGB_layout 200 100 50 (by decide) (by decide) (by decide)).1,
   (ASSEMBLE_RGB_layout 200 100 50 (by decide) (by decide) (by decide)).2.1⟩

/-! ## Bus transactions -/

theorem u16_of_lt {v : Nat} (h : v < 65536) : u16 v = v := Nat.mod_eq_of_lt h

theorem u8_of_lt {v : Nat} (h : v < 256) : u8 v = v := Nat.mod_eq_of_lt h

theorem setREG_trace (s : Lcd) (v : Nat) :
    (s.setREG v).trace = s.trace ++ [Event.index (u16 v)] := rfl

theorem setRAM_trace (s : Lcd) (v : Nat) :
    (s.setRAM v).trace = s.trace ++ [Event.data (u16 v)] := rfl

/-- A call of `LCD_WriteReg` is one index write followed by one data write. -/
theorem LCD_WriteReg_trace (s : Lcd) (r v : Nat) (hr : r < 256) (hv : v < 65536) :
    (LCD_WriteReg s r v).trace = s.trace ++ [Event.index r, Event.data v] := by
  have h8 : u8 r = r := u8_of_lt hr
  have h16 : u16 r = r := u16_of_lt (by omega)
  have hv16 : u16 v = v := u16_of_lt hv
  simp [LCD_WriteReg, Lcd.setREG, Lcd.setRAM, h8, h16, hv16]

/-- The controller after `LCD_WriteReg` on a register other than the graphics
RAM command: the register is selected and holds the value, the others and the
graphics RAM are as before. -/
theorem LCD_WriteReg_panel (s : Lcd) (r v : Nat) (hr : r < 256) (hv : v < 65536)
    (h22 : r ≠ 0x22) :
    (LCD_WriteReg s r v).panel.index = r
    ∧ (∀ q, (LCD_WriteReg s r v).panel.regs q = if q = r then v else s.panel.regs q)
    ∧ (LCD_WriteReg s r v).panel.gram = s.panel.gram := by
  have h8 : u8 r = r := u8_of_lt hr
  have h16 : u16 r = r := u16_of_lt (by omega)
  have hv16 : u16 v = v := u16_of_lt hv
  simp [LCD_WriteReg, Lcd.setREG, Lcd.setRAM, Panel.writeIndex, Panel.writeData, h8, h16, hv16,
    LCD_REG_34, h22]

/-- The bus transactions of `LCD_SetCursor`. -/
theorem LCD_SetCursor_trace (s : Lcd) (x y : Nat) (hx : x < 65536) (hy : y < 65536) :
    (LCD_SetCursor s x y).trace
      = s.trace ++ [Event.index 0x4E, Event.data x, Event.index 0x4F, Event.data y] := by
  have t1 := LCD_WriteReg_trace s LCD_REG_78 x (by decide) hx
  have t2 := LCD_WriteReg_trace (LCD_WriteReg s LCD_REG_78 x) LCD_REG_79 y (by decide) hy
  have e : LCD_SetCursor s x y = LCD_WriteReg (LCD_WriteReg s LCD_REG_78 x) LCD_REG_79 y := by
    unfold LCD_SetCursor
    rw [u16_of_lt hx, u16_of_lt hy]
  rw [e, t2, t1]
  simp [LCD_REG_78, LCD_REG_79]

/-- C4: for every pair of 16-bit values `(x, y)`, `LCD_SetCursor(x, y)` emits
exactly the index write `0x4E`, the data write `x`, the index write `0x4F` and
the data write `y`, in this order and with no delay; in the register file it
changes only the registers `0x4E` and `0x4F`. -/
theorem LCD_SetCursor_bus (s : Lcd) (x y : Nat) (hx : x < 65536) (hy : y < 65536) :
    (LCD_SetCursor s x y).trace
        = s.trace ++ [Event.index 0x4E, Event.data x, Event.index 0x4F, Event.data y]
    ∧ (LCD_REG_78 = 0x4E ∧ LCD_REG_79 = 0x4F)
    ∧ (LCD_SetCursor s x y).panel.regs 0x4E = x
    ∧ (LCD_SetCursor s x y).panel.regs 0x4F = y
    ∧ (∀ r, r ≠ 0x4E → r ≠ 0x4F → (LCD_SetCursor s x y).panel.regs r = s.panel.regs r)
    ∧ (LCD_SetCursor s x y).panel.gram = s.panel.gram
    ∧ (LCD_SetCursor s x y).TimingDelay = s.TimingDelay := by
  have hx16 : u16 x = x := u16_of_lt hx
  have hy16 : u16 y = y := u16_of_lt hy
  have ht := LCD_SetCursor_trace s x y hx hy
  have p1 := LCD_WriteReg_panel s LCD_REG_78 x (by decide) hx (by decide)
  have p2 := LCD_WriteReg_panel (LCD_WriteReg s LCD_REG_78 x) LCD_REG_79 y (by decide) hy
    (by decide)
  have e : LCD_SetCursor s x y = LCD_WriteReg (LCD_WriteReg s LCD_REG_78 x) LCD_REG_79 y := by
    unfold LCD_SetCursor
    rw [hx16, hy16]
  refine ⟨ht, ?_⟩
  rw [e]
  refine ⟨⟨rfl, rfl⟩, ?_, ?_, ?_, ?_, rfl⟩
  rotate_right
  · rw [p2.2.2, p1.2.2]
  · rw [p2.2.1, p1.2.1]
    simp [LCD_REG_78, LCD_REG_79]
  · rw [p2.2.1]
    simp [LCD_REG_79]
  · intro r h1 h2
    rw [p2.2.1, p1.2.1]
    simp [LCD_REG_78, LCD_REG_79, h1, h2]

theorem LCD_SetCursor_bus_witness :
    ((239 : Nat) < 65536 ∧ (319 : Nat) < 65536)
    ∧ (LCD_SetCursor Lcd.boot 239 319).trace
        = Lcd.boot.trace ++ [Event.index 0x4E, Event.data 239, Event.index 0x4F, Event.data 319] :=
  ⟨⟨by decide, by decide⟩, (LCD_SetCursor_bus Lcd.boot 239 319 (by decide) (by decide)).1⟩

/-! ## Full-panel clear -/

/-- The loop of `LCD_Clear` entered at `index ≤ 76800` performs exactly
`76800 - index` data writes and then exits. -/
theorem LCD_Clear_loop_eq (color : Nat) :
    ∀ (n index : Nat) (s : Lcd), index + n = 76800 →
      LCD_Clear_loop color index s = (fun t : Lcd => t.setRAM color)^[n] s := by
  intro n
  induction n with
  | zero =>
    intro index s h
    rw [LCD_Clear_loop, if_neg (by omega)]
    rfl
  | succ n ih =>
    intro index s h
    rw [LCD_Clear_loop, if_pos (by omega)]
    have e : (index + 1) % 4294967296 = index + 1 := by omega
    rw [e, ih (index + 1) _ (by omega), Function.iterate_succ_apply]

/-- The trace of `n` consecutive data writes. -/
theorem setRAM_iterate_trace (color : Nat) (n : Nat) (s : Lcd) :
    ((fun t : Lcd => t.setRAM color)^[n] s).trace
      = s.trace ++ List.replicate n (Event.data (u16 color)) := by
  induction n generalizing s with
  | zero => simp
  | succ n ih =>
    rw [Function.iterate_succ_apply, ih, setRAM_trace, List.replicate_succ]
    simp

/-- The controller after `n` consecutive data writes following the graphics
RAM command, the write pointer starting at cell `a` with `a + n` not beyond
the last cell. -/
theorem setRAM_iterate_panel (color : Nat) (a : Nat) (s : Lcd)
    (hi : s.panel.index = LCD_REG_34) (hp : s.panel.ptr = a % 76800) :
    ∀ n, a + n ≤ 76800 →
      ((fun t : Lcd => t.setRAM color)^[n] s).panel.index = LCD_REG_34
      ∧ ((fun t : Lcd => t.setRAM color)^[n] s).panel.ptr = (a + n) % 76800
      ∧ ((fun t : Lcd => t.setRAM color)^[n] s).panel.regs = s.panel.regs
      ∧ ∀ cell, ((fun t : Lcd => t.setRAM color)^[n] s).panel.gram cell
          = if a ≤ cell ∧ cell < a + n then u16 color else s.panel.gram cell := by
  intro n
  induction n with
  | zero =>
    intro _
    refine ⟨hi, hp, rfl, ?_⟩
    intro cell
    have : ¬ (a ≤ cell ∧ cell < a + 0) := by omega
    rw [if_neg this]
    rfl
  | succ n ih =>
    intro h
    obtain ⟨i1, i2, i3, i4⟩ := ih (by omega)
    rw [Function.iterate_succ_apply']
    generalize (fun t : Lcd => t.setRAM color)^[n] s = t at i1 i2 i3 i4
    have hptr : t.panel.ptr = a + n := by rw [i2]; omega
    have hcells : Panel.cells = 76800 := by decide
    simp only [Lcd.setRAM, Panel.writeData, if_pos i1, hptr, hcells]
    refine ⟨i1, rfl, i3, ?_⟩
    intro cell
    by_cases hc : cell = a + n
    · have : a ≤ cell ∧ cell < a + (n + 1) := by omega
      rw [if_pos hc, if_pos this]
    · rw [if_neg hc, i4]
      by_cases hr : a ≤ cell ∧ cell < a + n
      · have : a ≤ cell ∧ cell < a + (n + 1) := by omega
        rw [if_pos hr, if_pos this]
      · have : ¬ (a ≤ cell ∧ cell < a + (n + 1)) := by omega
        rw [if_neg hr, if_neg this]

/-- A call of `LCD_Clear` is the cursor set-up, the graphics RAM command and 76800
data writes. -/
theorem LCD_Clear_eq (s : Lcd) (color : Nat) :
    LCD_Clear s color
      = (fun t : Lcd => t.setRAM (u16 color))^[76800]
          (LCD_WriteRAM_Prepare (LCD_SetCursor s 0 0)) := by
  have h := LCD_Clear_loop_eq (u16 color) 76800 0 (LCD_WriteRAM_Prepare (LCD_SetCursor s 0 0))
    (by omega)
  rw [← h]
  rfl

/-- C2: for every 16-bit `color`, `LCD_Clear(color)` issues exactly the index
write `0x4E`, the data write `0`, the index write `0x4F`, the data write `0`,
the index write `0x22` with no data word of its own, then exactly 76800 data
writes of `color`, and nothing else; 76800 is
`LCD_PIXEL_WIDTH * LCD_PIXEL_HEIGHT`, that is `320 * 240`. -/
theorem LCD_Clear_trace (s : Lcd) (color : Nat) (hc : color < 65536) :
    (LCD_Clear s color).trace
        = s.trace
          ++ [Event.index 0x4E, Event.data 0, Event.index 0x4F, Event.data 0, Event.index 0x22]
          ++ List.replicate 76800 (Event.data color)
    ∧ 76800 = LCD_PIXEL_WIDTH * LCD_PIXEL_HEIGHT
    ∧ LCD_PIXEL_WIDTH = 320 ∧ LCD_PIXEL_HEIGHT = 240 := by
  refine ⟨?_, by decide, by decide, by decide⟩
  have hcur := LCD_SetCursor_trace s 0 0 (by omega) (by omega)
  have hprep : (LCD_WriteRAM_Prepare (LCD_SetCursor s 0 0)).trace
      = (LCD_SetCursor s 0 0).trace ++ [Event.index 0x22] := by
    unfold LCD_WriteRAM_Prepare
    rw [setREG_trace]
    rfl
  have happ : s.trace ++ [Event.index 0x4E, Event.data 0, Event.index 0x4F, Event.data 0]
        ++ [Event.index 0x22]
      = s.trace
        ++ [Event.index 0x4E, Event.data 0, Event.index 0x4F, Event.data 0, Event.index 0x22] := by
    simp
  have hcc : u16 (u16 color) = color := by
    rw [u16_of_lt hc, u16_of_lt hc]
  rw [LCD_Clear_eq, setRAM_iterate_trace, hprep, hcur, hcc, happ]

theorem LCD_Clear_trace_witness :
    (0xF800 : Nat) < 65536
    ∧ (LCD_Clear Lcd.boot 0xF800).trace
        = Lcd.boot.trace
          ++ [Event.index 0x4E, Event.data 0, Event.index 0x4F, Event.data 0, Event.index 0x22]
          ++ List.replicate 76800 (Event.data 0xF800) :=
  ⟨by decide, (LCD_Clear_trace Lcd.boot 0xF800 (by decide)).1⟩

/-- C9: in the test double of graphics RAM, `LCD_Clear(color)` run from any
prior RAM content and controller state leaves every one of the 76800 cells
equal to `color` and the write pointer back at cell `(0, 0)`. -/
theorem LCD_Clear_fills (s : Lcd) (color : Nat) (hc : color < 65536) :
    (∀ cell, cell < Panel.cells → (LCD_Clear s color).panel.gram cell = color)
    ∧ Panel.cells = 76800
    ∧ (LCD_Clear s color).panel.ptr = 0
    ∧ ((LCD_Clear s color).panel.ptr % LCD_PIXEL_WIDTH = 0
        ∧ (LCD_Clear s color).panel.ptr / LCD_PIXEL_WIDTH = 0) := by
  have hcells : Panel.cells = 76800 := by decide
  have hcur : (LCD_WriteRAM_Prepare (LCD_SetCursor s 0 0)).panel.index = LCD_REG_34
      ∧ (LCD_WriteRAM_Prepare (LCD_SetCursor s 0 0)).panel.ptr = 0 % 76800 := by
    simp [LCD_WriteRAM_Prepare, LCD_SetCursor, LCD_WriteReg, Lcd.setREG, Lcd.setRAM,
      Panel.writeIndex, Panel.writeData, u16, u8, LCD_REG_34, LCD_REG_78, LCD_REG_79]
  obtain ⟨h1, h2, _, h4⟩ :=
    setRAM_iterate_panel (u16 color) 0 _ hcur.1 hcur.2 76800 (by omega)
  have hptr : (LCD_Clear s color).panel.ptr = 0 := by
    rw [LCD_Clear_eq, h2]
  refine ⟨?_, hcells, hptr, ?_⟩
  · intro cell hcell
    have hcc : u16 (u16 color) = color := by
      rw [u16_of_lt hc, u16_of_lt hc]
    rw [LCD_Clear_eq, h4 cell, if_pos (by omega), hcc]
  · rw [hptr]
    exact ⟨by decide, by decide⟩

theorem LCD_Clear_fills_witness :
    (0xF800 : Nat) < 65536
    ∧ (∀ cell, cell < Panel.cells → (LCD_Clear Lcd.boot 0xF800).panel.gram cell = 0xF800)
    ∧ (LCD_Clear Lcd.boot 0xF800).panel.ptr = 0 :=
  ⟨by decide, (LCD_Clear_fills Lcd.boot 0xF800 (by decide)).1,
   (LCD_Clear_fills Lcd.boot 0xF800 (by decide)).2.2.1⟩

/-! ## Register sequencer -/

/-- In the table of `Init_LCD` every id fits eight bits, every value sixteen
and every delay thirty-two, so no conversion at a call changes them. -/
theorem initTable_inRange :
    ∀ step ∈ initTable, step.id < 256 ∧ step.value < 65536 ∧ step.delayMs < 4294967296 := by
  decide

/-- The table of `Init_LCD` never selects the graphics RAM command register. -/
theorem initTable_avoidsRAM : ∀ step ∈ initTable, step.id ≠ 0x22 := by
  decide

/-- The code of `Init_LCD` is its set-up followed by the table, step by step. -/
theorem Init_LCD_eq_applyTable (s : Lcd) :
    Init_LCD s = applyTable (Init_LCD_setup s) initTable := rfl

/-- One step puts its index write, its data write and its delay on the trace. -/
theorem applyStep_trace (s : Lcd) (step : InitStep)
    (h : step.id < 256 ∧ step.value < 65536 ∧ step.delayMs < 4294967296) :
    (applyStep s step).trace = s.trace ++ stepEvents step := by
  unfold applyStep stepEvents
  rw [Delay_eq]
  simp only
  rw [LCD_WriteReg_trace s _ _ h.1 h.2.1, Nat.mod_eq_of_lt h.2.2]
  simp

/-- A table puts the events of its steps on the trace in listed order. -/
theorem applyTable_trace (steps : List InitStep) :
    ∀ s : Lcd,
      (∀ step ∈ steps, step.id < 256 ∧ step.value < 65536 ∧ step.delayMs < 4294967296) →
      (applyTable s steps).trace = s.trace ++ tableEvents steps := by
  induction steps with
  | nil => intro s _; simp [applyTable, tableEvents]
  | cons step rest ih =>
    intro s h
    have hs := h step (List.mem_cons_self _ _)
    have hr : ∀ t ∈ rest, t.id < 256 ∧ t.value < 65536 ∧ t.delayMs < 4294967296 :=
      fun t ht => h t (List.mem_cons_of_mem _ ht)
    have e : applyTable s (step :: rest) = applyTable (applyStep s step) rest := rfl
    rw [e, ih _ hr, applyStep_trace s step hs]
    simp [tableEvents]

/-- C3: the register phase of `Init_LCD` applies its table in listed order
with no early exit: it has exactly 45 steps, each emitting the index write of
its register id, then the data write of its value, then a delay of its tick
count, before the next step begins; the step `(0x01, 0x2B3F)` is followed by a
delay of exactly 50 ticks and only then by the step `(0x05, 0x0000)`. -/
theorem Init_LCD_register_phase (s : Lcd) :
    Init_LCD s = initTable.foldl
        (fun t step => Delay (LCD_WriteReg t step.id step.value) step.delayMs) (Init_LCD_setup s)
    ∧ initTable.length = 45
    ∧ (Init_LCD s).trace = (Init_LCD_setup s).trace ++ tableEvents initTable
    ∧ tableEvents initTable
        = initTable.flatMap
            (fun step => [Event.index step.id, Event.data step.value, Event.delay step.delayMs])
    ∧ (tableEvents initTable).length = 3 * 45
    ∧ (initTable.get? 13 = some ⟨0x01, 0x2B3F, 50⟩ ∧ initTable.get? 14 = some ⟨0x05, 0x0000, 50⟩)
    ∧ ((tableEvents initTable).drop (3 * 13)).take 6
        = [Event.index 0x01, Event.data 0x2B3F, Event.delay 50,
           Event.index 0x05, Event.data 0x0000, Event.delay 50] := by
  refine ⟨rfl, rfl, ?_, rfl, rfl, ⟨rfl, rfl⟩, rfl⟩
  rw [Init_LCD_eq_applyTable, applyTable_trace _ _ initTable_inRange]

/-- The register file after one table step. -/
theorem applyStep_regs (s : Lcd) (step : InitStep)
    (h : step.id < 256 ∧ step.value < 65536) (h22 : step.id ≠ 0x22) (r : Nat) :
    (applyStep s step).panel.regs r = if r = step.id then step.value else s.panel.regs r := by
  unfold applyStep
  rw [Delay_eq]
  exact (LCD_WriteReg_panel s step.id step.value h.1 h.2 h22).2.1 r

/-- After a table that avoids the graphics RAM command, every register holds
the value the table wrote to it last, or its old value if the table has no
write to it. -/
theorem applyTable_regs (steps : List InitStep) :
    ∀ s : Lcd, (∀ step ∈ steps, step.id < 256 ∧ step.value < 65536 ∧ step.id ≠ 0x22) →
      ∀ r, (applyTable s steps).panel.regs r = (lastValue steps r).getD (s.panel.regs r) := by
  induction steps with
  | nil => intro s _ r; rfl
  | cons step rest ih =>
    intro s h r
    have hs := h step (List.mem_cons_self _ _)
    have hr : ∀ t ∈ rest, t.id < 256 ∧ t.value < 65536 ∧ t.id ≠ 0x22 :=
      fun t ht => h t (List.mem_cons_of_mem _ ht)
    have e : applyTable s (step :: rest) = applyTable (applyStep s step) rest := rfl
    rw [e, ih _ hr r, applyStep_regs s step ⟨hs.1, hs.2.1⟩ hs.2.2 r]
    have e2 : lastValue (step :: rest) r
        = match lastValue rest r with
          | some v => some v
          | none => if step.id = r then some step.value else none := rfl
    rw [e2]
    cases lastValue rest r with
    | some v => rfl
    | none =>
      by_cases hid : r = step.id
      · subst hid
        simp
      · have hid2 : ¬ step.id = r := fun h => hid h.symm
        simp [hid, hid2]

/-- The set-up part of `Init_LCD` issues no bus transaction. -/
theorem Init_LCD_setup_panel (s : Lcd) : (Init_LCD_setup s).panel = s.panel := by
  unfold Init_LCD_setup
  simp only [Delay_eq]
  rfl

/-- The register file after `Init_LCD`. -/
theorem Init_LCD_regs (s : Lcd) (r : Nat) :
    (Init_LCD s).panel.regs r = (lastValue initTable r).getD (s.panel.regs r) := by
  have h : ∀ step ∈ initTable, step.id < 256 ∧ step.value < 65536 ∧ step.id ≠ 0x22 :=
    fun step hm => ⟨(initTable_inRange step hm).1, (initTable_inRange step hm).2.1,
      initTable_avoidsRAM step hm⟩
  rw [Init_LCD_eq_applyTable, applyTable_regs initTable _ h r, Init_LCD_setup_panel]

/-- C8: applying the register table of `Init_LCD` twice is idempotent on the
register file: from any register state, the state after running the 45-step
table twice equals the state after running it once, and each register id holds
the last value the table writes to it; register `0x07`, written three times,
ends at `0x0033`. -/
theorem Init_LCD_idempotent (s : Lcd) :
    (Init_LCD (Init_LCD s)).panel.regs = (Init_LCD s).panel.regs
    ∧ (∀ r, (Init_LCD s).panel.regs r = (lastValue initTable r).getD (s.panel.regs r))
    ∧ (∀ r v, lastValue initTable r = some v →
        (Init_LCD s).panel.regs r = v ∧ (Init_LCD (Init_LCD s)).panel.regs r = v)
    ∧ (∀ r, lastValue initTable r = none →
        (Init_LCD s).panel.regs r = s.panel.regs r
        ∧ (Init_LCD (Init_LCD s)).panel.regs r = s.panel.regs r)
    ∧ (initTable.length = 45
        ∧ (initTable.filter (fun step => step.id = 0x07)).map (fun step => step.value)
            = [0x0021, 0x0023, 0x0033])
    ∧ (Init_LCD s).panel.regs 0x07 = 0x0033
    ∧ (Init_LCD (Init_LCD s)).panel.regs 0x07 = 0x0033 := by
  have h1 := Init_LCD_regs s
  have h2 := Init_LCD_regs (Init_LCD s)
  have h7 : lastValue initTable 0x07 = some 0x0033 := rfl
  refine ⟨?_, h1, ?_, ?_, ⟨rfl, rfl⟩, ?_, ?_⟩
  · funext r
    rw [h2 r, h1 r]
    cases lastValue initTable r <;> rfl
  · intro r v hv
    rw [h2 r, h1 r, hv]
    exact ⟨rfl, rfl⟩
  · intro r hn
    rw [h2 r, h1 r, hn]
    exact ⟨rfl, rfl⟩
  · rw [h1, h7]; rfl
  · rw [h2, h7]; rfl

/-! ## Order of initialization -/

/-- The events of the part of `Init_LCD` that precedes its register writes. -/
theorem Init_LCD_setup_trace (s : Lcd) :
    (Init_LCD_setup s).trace
      = s.trace ++ [Event.ctrlLinesConfig, Event.delay 3000, Event.fsmcConfig, Event.delay 3000,
          Event.timPinConfig, Event.timeBaseInit (TIM_Config s).TimerPeriod,
          Event.oc3Init (TIM_Config s).Channel3Pulse, Event.timEnable,
          Event.oc3Init (LCD_BackLight (TIM_Config s) 100).Channel3Pulse] := by
  unfold Init_LCD_setup
  simp only [Delay_eq]
  simp [LCD_CtrlLinesConfig, LCD_FSMCConfig, TIM_Config, LCD_BackLight, Lcd.emit]

/-- The whole trace of `Init_LCD`. -/
theorem Init_LCD_trace (s : Lcd) :
    (Init_LCD s).trace
      = s.trace ++ [Event.ctrlLinesConfig, Event.delay 3000, Event.fsmcConfig, Event.delay 3000,
          Event.timPinConfig, Event.timeBaseInit (TIM_Config s).TimerPeriod,
          Event.oc3Init (TIM_Config s).Channel3Pulse, Event.timEnable,
          Event.oc3Init (LCD_BackLight (TIM_Config s) 100).Channel3Pulse]
        ++ tableEvents initTable := by
  rw [Init_LCD_eq_applyTable, applyTable_trace _ _ initTable_inRange, Init_LCD_setup_trace]

/-- C11, as stated, fails: from the start state the first ten events of
`Init_LCD` are the transport configuration, then the timer and backlight
configuration, and only then the first register write; so a backlight
configuration event does precede a register-table write. -/
theorem Init_LCD_backlight_not_last :
    (Init_LCD Lcd.boot).trace.take 10
        = [Event.ctrlLinesConfig, Event.delay 3000, Event.fsmcConfig, Event.delay 3000,
           Event.timPinConfig, Event.timeBaseInit 9560, Event.oc3Init 9463, Event.timEnable,
           Event.oc3Init 9559, Event.index 0x07]
    ∧ backlightAfterWrites (Init_LCD Lcd.boot).trace = false := by
  rw [Init_LCD_trace]
  exact ⟨rfl, rfl⟩

/-- C11, amended: in the ordered event trace of `Init_LCD` the transport's
electrical configuration comes first, then the backlight controller is
configured (`TIM_Config` and `LCD_BackLight(100)`), and only then comes the
whole register table, all 45 register writes with their delays: every
backlight configuration event precedes every register-table write. -/
theorem Init_LCD_order (s : Lcd) :
    (Init_LCD s).trace
        = s.trace
          ++ [Event.ctrlLinesConfig, Event.delay 3000, Event.fsmcConfig, Event.delay 3000]
          ++ [Event.timPinConfig, Event.timeBaseInit (TIM_Config s).TimerPeriod,
              Event.oc3Init (TIM_Config s).Channel3Pulse, Event.timEnable,
              Event.oc3Init (LCD_BackLight (TIM_Config s) 100).Channel3Pulse]
          ++ tableEvents initTable
    ∧ (tableEvents initTable).all (fun e => !e.isBacklight && !e.isTransportConfig) = true
    ∧ ((tableEvents initTable).filter Event.isBusWrite).length = 2 * 45
    ∧ initTable.length = 45
    ∧ backlightBeforeWrites ((Init_LCD s).trace.drop s.trace.length) = true
    ∧ (Init_LCD s).trace.length = s.trace.length + 4 + 5 + 3 * 45 := by
  have h := Init_LCD_trace s
  have hd : (Init_LCD s).trace.drop s.trace.length
      = [Event.ctrlLinesConfig, Event.delay 3000, Event.fsmcConfig, Event.delay 3000,
          Event.timPinConfig, Event.timeBaseInit (TIM_Config s).TimerPeriod,
          Event.oc3Init (TIM_Config s).Channel3Pulse, Event.timEnable,
          Event.oc3Init (LCD_BackLight (TIM_Config s) 100).Channel3Pulse]
        ++ tableEvents initTable := by
    rw [h, List.append_assoc, List.drop_left]
  have hl : (tableEvents initTable).length = 3 * 45 := rfl
  refine ⟨?_, rfl, rfl, rfl, ?_, ?_⟩
  · rw [h]
    simp only [List.append_assoc, List.cons_append, List.nil_append]
  · rw [hd]
    rfl
  · rw [h, List.length_append, List.length_append, hl]
    rfl

/-! ## Duty below period -/

/-- The period `TIM_Config` computes fits sixteen bits, and its pulse is the
stored conversion of `99 * (TimerPeriod - 1) / 100`. -/
theorem TIM_Config_fields (t : Lcd) :
    (TIM_Config t).TimerPeriod < 65536
    ∧ (TIM_Config t).Channel3Pulse
        = u16 (u32 ((99 : Int) * (((TIM_Config t).TimerPeriod : Int) - 1)) / 100)
    ∧ (TIM_Config t).TIM_Period = (TIM_Config t).TimerPeriod
    ∧ (TIM_Config t).TIM_Pulse = (TIM_Config t).Channel3Pulse := by
  refine ⟨?_, rfl, rfl, rfl⟩
  have e : (TIM_Config t).TimerPeriod
      = u16 (u32 ((t.SystemCoreClock / 17570 : Nat) - 1 : Int)) := rfl
  rw [e]
  unfold u16
  omega

/-- The pulse `TIM_Config` computes stays below the period it computes, when
that period is at least 1. -/
theorem TIM_Config_pulse_le (t : Lcd) (hT : 1 ≤ (TIM_Config t).TimerPeriod) :
    (TIM_Config t).Channel3Pulse ≤ (TIM_Config t).TimerPeriod - 1 := by
  obtain ⟨c16, cpulse, _, _⟩ := TIM_Config_fields t
  rw [cpulse]
  generalize (TIM_Config t).TimerPeriod = P at hT c16
  have hx : ((99 : Int) * ((P : Int) - 1)) % 4294967296 = 99 * ((P : Int) - 1) :=
    Int.emod_eq_of_lt (by omega) (by omega)
  unfold u16 u32
  rw [hx]
  have hq : (99 * ((P : Int) - 1)).toNat / 100 ≤ P - 1 := by omega
  rw [Nat.mod_eq_of_lt (by omega)]
  exact hq

/-- The period `TIM_Config` computes is zero exactly when the quotient
`SystemCoreClock / 17570` is congruent to 1 modulo `2^16`. -/
theorem TIM_Config_period_pos_iff (t : Lcd) :
    1 ≤ (TIM_Config t).TimerPeriod ↔ (t.SystemCoreClock / 17570) % 65536 ≠ 1 := by
  have e : (TIM_Config t).TimerPeriod
      = u16 (u32 ((t.SystemCoreClock / 17570 : Nat) - 1 : Int)) := rfl
  rw [e]
  generalize t.SystemCoreClock / 17570 = q
  unfold u16 u32
  omega

/-- The pulse `LCD_BackLight` stores stays below a period of at least 1. -/
theorem LCD_BackLight_pulse_le (s : Lcd) (p : Int)
    (hP : 1 ≤ s.TimerPeriod) (hP16 : s.TimerPeriod < 65536) :
    (LCD_BackLight s p).Channel3Pulse ≤ s.TimerPeriod - 1 := by
  have he := LCD_BackLight_pulse_exact s p hP hP16
  obtain ⟨h0, h100⟩ := clampPercent_range p
  have hm0 : 0 ≤ clampPercent p * ((s.TimerPeriod : Int) - 1) :=
    mul_nonneg h0 (by omega)
  have hm1 : clampPercent p * ((s.TimerPeriod : Int) - 1) ≤ 100 * ((s.TimerPeriod : Int) - 1) :=
    mul_le_mul_of_nonneg_right h100 (by omega)
  omega

/-- C12, as stated, fails for `TIM_Config`: with a core clock of 17570 Hz the
quotient `SystemCoreClock / 17570` is 1, so the period computed is 0, the
subtraction `TimerPeriod - 1` wraps and the 99% pulse is 23591, which is not
below the period; a following `LCD_BackLight(50)` programs 23592 against the
same period 0. -/
theorem TIM_Config_duty_not_below_period :
    (TIM_Config (Lcd.withClock 17570)).TimerPeriod = 0
    ∧ (TIM_Config (Lcd.withClock 17570)).TIM_Period = 0
    ∧ (TIM_Config (Lcd.withClock 17570)).Channel3Pulse = 23591
    ∧ (TIM_Config (Lcd.withClock 17570)).TIM_Pulse = 23591
    ∧ ¬ ((TIM_Config (Lcd.withClock 17570)).TIM_Pulse
          < (TIM_Config (Lcd.withClock 17570)).TIM_Period)
    ∧ (LCD_BackLight (TIM_Config (Lcd.withClock 17570)) 50).TIM_Pulse = 23592
    ∧ ¬ ((LCD_BackLight (TIM_Config (Lcd.withClock 17570)) 50).TIM_Pulse
          < (LCD_BackLight (TIM_Config (Lcd.withClock 17570)) 50).TIM_Period) := by
  refine ⟨?_, ?_, ?_, ?_, ?_, ?_, ?_⟩ <;> decide

/-- C12, amended: for every 16-bit timer period `P ≥ 1` and every `int` `p`,
`LCD_BackLight(p)` leaves `TimerPeriod` unchanged, copies it into the
time-base period field and programs a compare value strictly below the
period: afterwards `TIM_Period = TimerPeriod = P` and
`TIM_Pulse = Channel3Pulse ≤ P - 1 < P`. For `TIM_Config` the same bound
holds for its 99% value exactly when `SystemCoreClock / 17570` is not
congruent to 1 modulo `2^16`, that is when the period it computes is not 0;
for such a clock the bound also holds after every `LCD_BackLight` call that
follows `TIM_Config`. -/
theorem backlight_duty_below_period (s t : Lcd) (p : Int)
    (hP : 1 ≤ s.TimerPeriod) (hP16 : s.TimerPeriod < 65536)
    (hClk : (t.SystemCoreClock / 17570) % 65536 ≠ 1) :
    ((LCD_BackLight s p).TimerPeriod = s.TimerPeriod
      ∧ (LCD_BackLight s p).TIM_Period = s.TimerPeriod
      ∧ (LCD_BackLight s p).TIM_Pulse = (LCD_BackLight s p).Channel3Pulse
      ∧ (LCD_BackLight s p).Channel3Pulse ≤ s.TimerPeriod - 1
      ∧ s.TimerPeriod - 1 < s.TimerPeriod
      ∧ (LCD_BackLight s p).TIM_Pulse < (LCD_BackLight s p).TIM_Period)
    ∧ (1 ≤ (TIM_Config t).TimerPeriod
      ∧ (TIM_Config t).TIM_Period = (TIM_Config t).TimerPeriod
      ∧ (TIM_Config t).TIM_Pulse = (TIM_Config t).Channel3Pulse
      ∧ (TIM_Config t).Channel3Pulse ≤ (TIM_Config t).TimerPeriod - 1
      ∧ (TIM_Config t).TIM_Pulse < (TIM_Config t).TIM_Period)
    ∧ ((LCD_BackLight (TIM_Config t) p).TIM_Period = (TIM_Config t).TimerPeriod
      ∧ (LCD_BackLight (TIM_Config t) p).TIM_Pulse
          < (LCD_BackLight (TIM_Config t) p).TIM_Period)
    ∧ (∀ u : Lcd, (TIM_Config u).TIM_Pulse < (TIM_Config u).TIM_Period
          ↔ (u.SystemCoreClock / 17570) % 65536 ≠ 1) := by
  have hper : (LCD_BackLight s p).TimerPeriod = s.TimerPeriod := rfl
  have htp : (LCD_BackLight s p).TIM_Period = s.TimerPeriod := rfl
  have hpulse := (LCD_BackLight_pulse_raw s p).2
  have hle := LCD_BackLight_pulse_le s p hP hP16
  obtain ⟨c16, _, cper, cpl⟩ := TIM_Config_fields t
  have hT : 1 ≤ (TIM_Config t).TimerPeriod := (TIM_Config_period_pos_iff t).2 hClk
  have cle := TIM_Config_pulse_le t hT
  have bper : (LCD_BackLight (TIM_Config t) p).TIM_Period = (TIM_Config t).TimerPeriod := rfl
  have bpulse := (LCD_BackLight_pulse_raw (TIM_Config t) p).2
  have ble := LCD_BackLight_pulse_le (TIM_Config t) p hT c16
  refine ⟨⟨hper, htp, hpulse, hle, by omega, ?_⟩, ⟨hT, cper, cpl, cle, ?_⟩, ⟨bper, ?_⟩, ?_⟩
  · rw [hpulse, htp]; omega
  · rw [cpl, cper]; omega
  · rw [bpulse, bper]; omega
  · intro u
    obtain ⟨_, upulse, uper, upl⟩ := TIM_Config_fields u
    constructor
    · intro h
      have h1 : 1 ≤ (TIM_Config u).TimerPeriod := by rw [uper] at h; omega
      exact (TIM_Config_period_pos_iff u).1 h1
    · intro h
      have h1 := (TIM_Config_period_pos_iff u).2 h
      have h2 := TIM_Config_pulse_le u h1
      rw [upl, uper]
      omega

theorem backlight_duty_below_period_witness :
    (1 ≤ (Lcd.withPeriod 9560).TimerPeriod ∧ (Lcd.withPeriod 9560).TimerPeriod < 65536
      ∧ (Lcd.boot.SystemCoreClock / 17570) % 65536 ≠ 1)
    ∧ (LCD_BackLight (Lcd.withPeriod 9560) 250).TIM_Pulse
        < (LCD_BackLight (Lcd.withPeriod 9560) 250).TIM_Period
    ∧ (TIM_Config Lcd.boot).TIM_Pulse < (TIM_Config Lcd.boot).TIM_Period :=
  ⟨⟨by decide, by decide, by decide⟩,
   (backlight_duty_below_period (Lcd.withPeriod 9560) Lcd.boot 250
      (by decide) (by decide) (by decide)).1.2.2.2.2.2,
   (backlight_duty_below_period (Lcd.withPeriod 9560) Lcd.boot 250
      (by decide) (by decide) (by decide)).2.1.2.2.2.2⟩

end SSD1289
